import Mathlib

/-!
Verification of the `appstore` in-app-purchase receipt client.

The Go package has two source files: a client (`Client`, `New`, `NewWithClient`,
`Verify`, `parseResponse`, `HandleError`, endpoint constants) and a data model
(`IAPRequest`, `StatusResponse`, and various response schemas).  This file gives
a shallow embedding of the client.

Modelling conventions:
* HTTP I/O is represented by a `World` record: `newRequestErr` models whether
  `http.NewRequest("POST", url, body)` fails for a given URL, and `doReq` models
  `httpCli.Do` as a function from (url, serialized body) to a transport error or
  an `HttpResponse`.
* A raw response body is `Option Json`: `some j` is a byte string that parses as
  the JSON document `j`, `none` is a byte string that is not valid JSON (so the
  stdlib decode step, which is outside this repository, is modelled at the level
  of parsed documents).
* The caller's `result interface\x7b\x7d` target is modelled as a generic JSON
  object view `Tgt := String → Option Json`.  Go's `json.Unmarshal` into an
  existing value merges: fields present in the document overwrite, fields absent
  from the document are left unchanged, and a top-level `null` is a no-op.
* `Verify` is a pointer-receiver method in Go, so its embedding returns the
  (possibly updated) receiver in its output record, together with the mutated
  result target, the list of HTTP requests issued, and the returned error.
* The caller-supplied `context.Context` only influences transport outcomes
  (cancellation surfaces as a `Do` error), so it is folded into `World.doReq`.
-/

/-- JSON documents, as produced by parsing a response body. -/
inductive Json where
  | null : Json
  | bool (b : Bool) : Json
  | num (n : Int) : Json
  | str (s : String) : Json
  | arr (xs : List Json) : Json
  | obj (fs : List (String × Json)) : Json

/-- Errors surfaced by the client: decode failures, request-construction
failures and transport failures. -/
inductive GoErr where
  | invalidJson : GoErr
  | typeMismatch : GoErr
  | urlErr (msg : String) : GoErr
  | transport (msg : String) : GoErr
  deriving DecidableEq, Repr

/-- SandboxURL is the endpoint for sandbox environment. -/
def SandboxURL : String := "https://sandbox.itunes.apple.com/verifyReceipt"

/-- ProductionURL is the endpoint for production environment. -/
def ProductionURL : String := "https://buy.itunes.apple.com/verifyReceipt"

/-- ContentType is the request content-type for apple store. -/
def ContentType : String := "application/json; charset=utf-8"

/-- Nanoseconds in `time.Second`. -/
def timeSecond : Nat := 1000000000

/-- Embedding of `http.Client`: only the configuration the claims mention. -/
structure HttpClient where
  Timeout : Nat
  deriving DecidableEq, Repr

/-- Client implements IAPClient (field for field from the Go struct). -/
structure Client where
  ProductionURL : String
  SandboxURL : String
  httpCli : HttpClient
  IsProduct : Bool
  deriving DecidableEq, Repr

/-- The IAPRequest type has the request parameter. -/
structure IAPRequest where
  ReceiptData : String
  Password : String
  ExcludeOldTransactions : Bool
  deriving DecidableEq, Repr

/-- The StatusResponse struct contains the status code returned by the store. -/
structure StatusResponse where
  Status : Int
  deriving DecidableEq, Repr

/-- HandleError returns error message by status code (`none` embeds a `nil`
error, `some msg` embeds `errors.New(msg)`). -/
def HandleError (status : Int) : Option String :=
  if status = 0 then none
  else if status = 21000 then
    some "The App Store could not read the JSON object you provided."
  else if status = 21002 then
    some "The data in the receipt-data property was malformed or missing."
  else if status = 21003 then
    some "The receipt could not be authenticated."
  else if status = 21004 then
    some "The shared secret you provided does not match the shared secret on file for your account."
  else if status = 21005 then
    some "The receipt server is not currently available."
  else if status = 21007 then
    some "This receipt is from the test environment, but it was sent to the production environment for verification. Send it to the test environment instead."
  else if status = 21008 then
    some "This receipt is from the production environment, but it was sent to the test environment for verification. Send it to the production environment instead."
  else if status = 21010 then
    some "This receipt could not be authorized. Treat this the same as if a purchase was never made."
  else if 21100 ≤ status ∧ status ≤ 21199 then
    some "Internal data access error."
  else
    some "An unknown error occurred"

/-- New creates a client object. -/
def New (isProduct : Bool) : Client :=
  { ProductionURL := ProductionURL
    SandboxURL := SandboxURL
    IsProduct := isProduct
    httpCli := { Timeout := 10 * timeSecond } }

/-- NewWithClient creates a client with a custom http client. -/
def NewWithClient (client : HttpClient) (isProduct : Bool) : Client :=
  { ProductionURL := ProductionURL
    SandboxURL := SandboxURL
    httpCli := client
    IsProduct := isProduct }

/-- Quote a string as a JSON string literal, escaping backslash and quote. -/
def jsonQuote (s : String) : String :=
  "\"" ++ String.join (s.data.map fun c =>
    if c = '\\' then "\\\\" else if c = '\"' then "\\\"" else String.singleton c) ++ "\""

/-- Serialization of an `IAPRequest` as written by
`json.NewEncoder(b).Encode(reqBody)`: the struct tags are `receipt-data`,
`password,omitempty` and `exclude-old-transactions`, and `Encode` appends a
newline.  Encoding of this struct (strings and a bool) cannot fail in Go, so
the embedding is total and the discarded `Encode` error is always `nil`. -/
def encodeIAPRequest (r : IAPRequest) : String :=
  "\x7b" ++ "\"receipt-data\":" ++ jsonQuote r.ReceiptData ++
    (if r.Password = "" then "" else ",\"password\":" ++ jsonQuote r.Password) ++
    ",\"exclude-old-transactions\":" ++ (if r.ExcludeOldTransactions then "true" else "false") ++
    "\x7d\n"

/-- Embedding of `*http.Response` as consumed by `parseResponse`: reading the
body either fails or yields the raw bytes, modelled post-parse as
`Option Json` (`none` when the bytes are not valid JSON). -/
structure HttpResponse where
  body : Except GoErr (Option Json)

/-- One HTTP request issued through `httpCli.Do`. -/
structure HttpCall where
  url : String
  contentType : String
  body : String
  deriving DecidableEq, Repr

/-- The ambient HTTP layer: whether `http.NewRequest` fails for a URL, and the
outcome of `httpCli.Do` for a (url, body) pair. -/
structure World where
  newRequestErr : String → Option GoErr
  doReq : String → String → Except GoErr HttpResponse

/-- The POST issued against the production endpoint for a request: the
serialized request body with the fixed content-type header. -/
def productionCall (c : Client) (reqBody : IAPRequest) : HttpCall :=
  { url := c.ProductionURL, contentType := ContentType, body := encodeIAPRequest reqBody }

/-- The POST issued against the sandbox endpoint for a request: the same
serialization of the same request body with the same header. -/
def sandboxCall (c : Client) (reqBody : IAPRequest) : HttpCall :=
  { url := c.SandboxURL, contentType := ContentType, body := encodeIAPRequest reqBody }

/-- The caller's `result` target, viewed as a generic JSON object: a map from
field name to decoded value. -/
def Tgt : Type := String → Option Json

/-- Merge one decoded field into the target (Go's `json.Unmarshal` overwrites
the named field and keeps the rest). -/
def setField (t : Tgt) (k : String) (v : Json) : Tgt :=
  fun k' => if k' = k then some v else t k'

/-- Value of a field of the target. -/
def getField (t : Tgt) (k : String) : Option Json := t k

/-- Last binding of a key in a decoded JSON object (for duplicate keys,
Go's `json.Unmarshal` keeps the last value). -/
def lookupLast (fs : List (String × Json)) (k : String) : Option Json :=
  match fs with
  | [] => none
  | p :: rest =>
    match lookupLast rest k with
    | some v => some v
    | none => if p.1 = k then some p.2 else none

/-- Embedding of `json.Unmarshal(buf, &result)` for the caller's generic
target: invalid JSON is a syntax error, a top-level `null` is a no-op, an
object merges field by field into the existing value, and any other top-level
document is structurally incompatible with an object target. -/
def unmarshalTgt (buf : Option Json) (t : Tgt) : Except GoErr Tgt :=
  match buf with
  | none => .error .invalidJson
  | some .null => .ok t
  | some (.obj fs) => .ok (fs.foldl (fun acc p => setField acc p.1 p.2) t)
  | some _ => .error .typeMismatch

/-- Embedding of `json.Unmarshal(buf, &r)` for `var r StatusResponse`: invalid
JSON is a syntax error, a top-level `null` leaves the zero value, an object
must carry a numeric (or absent, or null) `status` field, and any other
top-level document is structurally incompatible. -/
def unmarshalStatusResponse (buf : Option Json) : Except GoErr StatusResponse :=
  match buf with
  | none => .error .invalidJson
  | some .null => .ok { Status := 0 }
  | some (.obj fs) =>
    match lookupLast fs "status" with
    | none => .ok { Status := 0 }
    | some .null => .ok { Status := 0 }
    | some (.num n) => .ok { Status := n }
    | some _ => .error .typeMismatch
  | some _ => .error .typeMismatch

/-- Outcome of a `Verify` call: the receiver after the call, the caller's
result target after the call, the HTTP requests issued, and the returned
error (`none` embeds a `nil` error). -/
structure VerifyOut where
  client : Client
  result : Tgt
  trace : List HttpCall
  err : Option GoErr

/-- Embedding of `(c *Client) parseResponse(resp, result, ctx, reqBody)`:
read the body, unmarshal it into the caller's target and into a
`StatusResponse`; when the client is not production-configured and the status
is 21007, re-encode the same request, POST it to the sandbox endpoint and
decode that response into the (already populated) target. -/
def parseResponse (w : World) (c : Client) (resp : HttpResponse) (result : Tgt)
    (reqBody : IAPRequest) : VerifyOut :=
  match resp.body with
  | .error e => { client := c, result := result, trace := [], err := some e }
  | .ok buf =>
    match unmarshalTgt buf result with
    | .error e => { client := c, result := result, trace := [], err := some e }
    | .ok result1 =>
      match unmarshalStatusResponse buf with
      | .error e => { client := c, result := result1, trace := [], err := some e }
      | .ok r =>
        if c.IsProduct = false ∧ r.Status = 21007 then
          match w.newRequestErr c.SandboxURL with
          | some e => { client := c, result := result1, trace := [], err := some e }
          | none =>
            match w.doReq c.SandboxURL (encodeIAPRequest reqBody) with
            | .error e =>
              { client := c, result := result1, trace := [sandboxCall c reqBody], err := some e }
            | .ok resp2 =>
              match resp2.body with
              | .error e =>
                { client := c, result := result1, trace := [sandboxCall c reqBody], err := some e }
              | .ok buf2 =>
                match unmarshalTgt buf2 result1 with
                | .error e =>
                  { client := c, result := result1, trace := [sandboxCall c reqBody], err := some e }
                | .ok result2 =>
                  { client := c, result := result2, trace := [sandboxCall c reqBody], err := none }
        else
          { client := c, result := result1, trace := [], err := none }

/-- Embedding of `(c *Client) Verify(ctx, reqBody, result)`: encode the
request (total for `IAPRequest`; the ignored `Encode` error is always `nil`),
build and send the production POST, then hand the response to
`parseResponse`. -/
def Verify (w : World) (c : Client) (reqBody : IAPRequest) (result : Tgt) : VerifyOut :=
  match w.newRequestErr c.ProductionURL with
  | some e => { client := c, result := result, trace := [], err := some e }
  | none =>
    match w.doReq c.ProductionURL (encodeIAPRequest reqBody) with
    | .error e => { client := c, result := result, trace := [productionCall c reqBody], err := some e }
    | .ok resp =>
      { client := (parseResponse w c resp result reqBody).client
        result := (parseResponse w c resp result reqBody).result
        trace := productionCall c reqBody :: (parseResponse w c resp result reqBody).trace
        err := (parseResponse w c resp result reqBody).err }

/-! Concrete instances used to exercise the theorems. -/

/-- Client configured as not-production (sandbox-aware), with short endpoint
URLs, as the caller may override the URL fields directly. -/
def cSandboxAware : Client :=
  { ProductionURL := "prod", SandboxURL := "sb", httpCli := { Timeout := 0 }, IsProduct := false }

/-- Client configured as production. -/
def cProduction : Client :=
  { ProductionURL := "prod", SandboxURL := "sb", httpCli := { Timeout := 0 }, IsProduct := true }

/-- Sample verification request. -/
def reqSample : IAPRequest :=
  { ReceiptData := "abc123", Password := "", ExcludeOldTransactions := false }

/-- Fresh caller result target with no populated fields. -/
def tgtEmpty : Tgt := fun _ => none

/-- World answering every request with a body holding a fixed status code. -/
def wStatus (n : Int) : World :=
  { newRequestErr := fun _ => none
    doReq := fun _ _ => .ok { body := .ok (some (Json.obj [("status", Json.num n)])) } }

/-- World whose production endpoint answers status 21007 and whose sandbox
endpoint answers status 0 together with an environment field. -/
def wFallback : World :=
  { newRequestErr := fun _ => none
    doReq := fun url _ =>
      if url = "sb" then
        .ok { body := .ok (some (Json.obj
          [("status", Json.num 0), ("environment", Json.str "Sandbox")])) }
      else
        .ok { body := .ok (some (Json.obj [("status", Json.num 21007)])) } }

/-- World whose production endpoint answers status 21007 plus an extra field
the sandbox body does not carry, and whose sandbox endpoint answers status 0
only. -/
def wRetain : World :=
  { newRequestErr := fun _ => none
    doReq := fun url _ =>
      if url = "sb" then
        .ok { body := .ok (some (Json.obj [("status", Json.num 0)])) }
      else
        .ok { body := .ok (some (Json.obj
          [("status", Json.num 21007), ("latest_receipt", Json.str "prodOnly")])) } }

/-- World whose responses are byte strings that are not valid JSON. -/
def wInvalidJson : World :=
  { newRequestErr := fun _ => none
    doReq := fun _ _ => .ok { body := .ok none } }

/-- World in which building the HTTP request fails for every URL. -/
def wBadURL : World :=
  { newRequestErr := fun _ => some (GoErr.urlErr "parse")
    doReq := fun _ _ => .error (GoErr.transport "unreachable") }

/-! Helper lemmas. -/

/-- Every branch of `HandleError` with a non-zero status yields a message. -/
theorem handleError_ne_none (s : Int) (hs : s ≠ 0) : HandleError s ≠ none := by
  unfold HandleError
  rw [if_neg hs]
  repeat' split
  all_goals simp

/-- The receiver is returned unchanged by every branch of `parseResponse`. -/
theorem parseResponse_client (w : World) (c : Client) (resp : HttpResponse) (res : Tgt)
    (req : IAPRequest) : (parseResponse w c resp res req).client = c := by
  unfold parseResponse
  repeat' split
  all_goals rfl

/-- Every branch of `parseResponse` issues at most one HTTP request. -/
theorem parseResponse_trace_len (w : World) (c : Client) (resp : HttpResponse) (res : Tgt)
    (req : IAPRequest) : (parseResponse w c resp res req).trace.length ≤ 1 := by
  unfold parseResponse
  repeat' split
  all_goals simp

/-- Merging an object into a target leaves a key untouched when the object
does not bind it. -/
theorem foldl_setField_absent (fs : List (String × Json)) (k : String) :
    ∀ t : Tgt, lookupLast fs k = none →
      List.foldl (fun acc p => setField acc p.1 p.2) t fs k = t k := by
  induction fs with
  | nil => intro t _; rfl
  | cons p rest ih =>
    intro t h
    simp only [lookupLast] at h
    rcases hr : lookupLast rest k with _ | v
    · rw [hr] at h
      simp only at h
      have hpk : ¬ p.1 = k := by
        intro he
        rw [if_pos he] at h
        exact Option.noConfusion h
      simp only [List.foldl_cons]
      rw [ih _ hr]
      simp only [setField]
      rw [if_neg (fun he => hpk he.symm)]
    · rw [hr] at h
      exact Option.noConfusion h

/-- Merging an object into a target stores the last bound value of each key
the object binds. -/
theorem foldl_setField_present (fs : List (String × Json)) (k : String) (v : Json) :
    ∀ t : Tgt, lookupLast fs k = some v →
      List.foldl (fun acc p => setField acc p.1 p.2) t fs k = some v := by
  induction fs with
  | nil => intro t h; exact Option.noConfusion h
  | cons p rest ih =>
    intro t h
    simp only [lookupLast] at h
    rcases hr : lookupLast rest k with _ | v2
    · rw [hr] at h
      simp only at h
      by_cases hpk : p.1 = k
      · rw [if_pos hpk] at h
        simp only [List.foldl_cons]
        rw [foldl_setField_absent rest k _ hr]
        simp only [setField]
        rw [if_pos hpk.symm]
        exact h
      · rw [if_neg hpk] at h
        exact Option.noConfusion h
    · rw [hr] at h
      simp only at h
      have hv : v2 = v := by simpa using h
      subst hv
      simp only [List.foldl_cons]
      exact ih _ hr

/-- Value of a key after decoding an object body into a target, when the body
binds the key. -/
theorem unmarshalTgt_present {fs : List (String × Json)} {t t1 : Tgt} {k : String} {v : Json}
    (h : unmarshalTgt (some (Json.obj fs)) t = .ok t1) (hk : lookupLast fs k = some v) :
    t1 k = some v := by
  simp only [unmarshalTgt, Except.ok.injEq] at h
  rw [← h]
  exact foldl_setField_present fs k v t hk

/-- Value of a key after decoding an object body into a target, when the body
does not bind the key: the previous value is retained. -/
theorem unmarshalTgt_absent {fs : List (String × Json)} {t t1 : Tgt} {k : String}
    (h : unmarshalTgt (some (Json.obj fs)) t = .ok t1) (hk : lookupLast fs k = none) :
    t1 k = t k := by
  simp only [unmarshalTgt, Except.ok.injEq] at h
  rw [← h]
  exact foldl_setField_absent fs k t hk

/-- Evaluation of `Verify` along the sandbox-fallback path: not production
configured, production status decodes to 21007, and both legs succeed. -/
theorem verify_fallback_eval
    (w : World) (c : Client) (req : IAPRequest) (res : Tgt)
    {resp resp2 : HttpResponse} {buf buf2 : Option Json} {res1 res2 : Tgt}
    (hprod : c.IsProduct = false)
    (hnr : w.newRequestErr c.ProductionURL = none)
    (hdo : w.doReq c.ProductionURL (encodeIAPRequest req) = .ok resp)
    (hbody : resp.body = .ok buf)
    (htgt : unmarshalTgt buf res = .ok res1)
    (hst : unmarshalStatusResponse buf = .ok { Status := 21007 })
    (hnr2 : w.newRequestErr c.SandboxURL = none)
    (hdo2 : w.doReq c.SandboxURL (encodeIAPRequest req) = .ok resp2)
    (hbody2 : resp2.body = .ok buf2)
    (htgt2 : unmarshalTgt buf2 res1 = .ok res2) :
    Verify w c req res =
      { client := c, result := res2,
        trace := [productionCall c req, sandboxCall c req], err := none } := by
  simp [Verify, parseResponse, hnr, hdo, hbody, htgt, hst, hprod, hnr2, hdo2, hbody2, htgt2]

/-! Claim theorems. -/

/-- Claim C3: `HandleError` returns no error exactly for status 0, the fixed
documented message for each code in the fixed table, the internal-data-access
message on the whole closed range [21100, 21199], and the unknown-error
message for every other non-zero code. -/
theorem handleError_status_table :
    (∀ s : Int, HandleError s = none ↔ s = 0) ∧
    HandleError 21000 = some "The App Store could not read the JSON object you provided." ∧
    HandleError 21002 = some "The data in the receipt-data property was malformed or missing." ∧
    HandleError 21003 = some "The receipt could not be authenticated." ∧
    HandleError 21004 =
      some "The shared secret you provided does not match the shared secret on file for your account." ∧
    HandleError 21005 = some "The receipt server is not currently available." ∧
    HandleError 21007 =
      some "This receipt is from the test environment, but it was sent to the production environment for verification. Send it to the test environment instead." ∧
    HandleError 21008 =
      some "This receipt is from the production environment, but it was sent to the test environment for verification. Send it to the production environment instead." ∧
    HandleError 21010 =
      some "This receipt could not be authorized. Treat this the same as if a purchase was never made." ∧
    (∀ s : Int, 21100 ≤ s → s ≤ 21199 → HandleError s = some "Internal data access error.") ∧
    (∀ s : Int, s ≠ 0 →
      s ∉ ([21000, 21002, 21003, 21004, 21005, 21007, 21008, 21010] : List Int) →
      ¬(21100 ≤ s ∧ s ≤ 21199) →
      HandleError s = some "An unknown error occurred") := by
  refine ⟨?_, rfl, rfl, rfl, rfl, rfl, rfl, rfl, rfl, ?_, ?_⟩
  · intro s
    constructor
    · intro h
      by_contra hs
      exact handleError_ne_none s hs h
    · intro h
      simp [HandleError, h]
  · intro s h1 h2
    have e0 : ¬ s = 0 := by omega
    have e1 : ¬ s = 21000 := by omega
    have e2 : ¬ s = 21002 := by omega
    have e3 : ¬ s = 21003 := by omega
    have e4 : ¬ s = 21004 := by omega
    have e5 : ¬ s = 21005 := by omega
    have e6 : ¬ s = 21007 := by omega
    have e7 : ¬ s = 21008 := by omega
    have e8 : ¬ s = 21010 := by omega
    simp only [HandleError, e0, e1, e2, e3, e4, e5, e6, e7, e8, if_false]
    exact if_pos ⟨h1, h2⟩
  · intro s h0 hmem hrange
    simp only [List.mem_cons, List.not_mem_nil, or_false, not_or] at hmem
    obtain ⟨m1, m2, m3, m4, m5, m6, m7, m8⟩ := hmem
    simp only [HandleError, h0, m1, m2, m3, m4, m5, m6, m7, m8, hrange, if_false]

/-- Witness for C3: the table theorem evaluated at concrete status codes with
the hypotheses discharged. -/
theorem handleError_status_table_witness :
    HandleError 21150 = some "Internal data access error." ∧
    HandleError 22222 = some "An unknown error occurred" :=
  ⟨handleError_status_table.2.2.2.2.2.2.2.2.2.1 21150 (by decide) (by decide),
   handleError_status_table.2.2.2.2.2.2.2.2.2.2 22222 (by decide) (by decide) (by decide)⟩

/-- Claim C8: a client built by `New` uses the two well-known endpoint URLs
and an HTTP transport with a 10-second timeout. -/
theorem new_client_defaults (b : Bool) :
    (New b).ProductionURL = "https://buy.itunes.apple.com/verifyReceipt" ∧
    (New b).SandboxURL = "https://sandbox.itunes.apple.com/verifyReceipt" ∧
    (New b).httpCli.Timeout = 10 * timeSecond ∧
    timeSecond = 1000000000 ∧
    (New b).IsProduct = b := by
  and_intros <;> rfl

/-- Claim C9: `Verify` never modifies the client configuration: the receiver
(and so its URLs, production flag and HTTP transport) is the same after the
call as before it, in every branch. -/
theorem verify_preserves_client (w : World) (c : Client) (req : IAPRequest) (res : Tgt) :
    (Verify w c req res).client = c := by
  unfold Verify
  repeat' split
  all_goals first
    | rfl
    | exact parseResponse_client w c _ res req

/-- Claim C4: a `Verify` call issues at most two HTTP requests, so at most one
sandbox re-dispatch happens and no third request is ever sent, whatever the
sandbox response contains. -/
theorem verify_at_most_one_redispatch (w : World) (c : Client) (req : IAPRequest) (res : Tgt) :
    (Verify w c req res).trace.length ≤ 2 := by
  unfold Verify
  repeat' split
  · simp
  · simp
  · rename_i resp heq
    have h := parseResponse_trace_len w c resp res req
    simp only [List.length_cons]
    omega

/-- Claim C1: for a client with `IsProduct = false` whose production response
body decodes to a status envelope with status 21007, `Verify` issues exactly
one secondary POST, to the client's sandbox endpoint, carrying the same
serialization of the original `IAPRequest`, and the final result target is
the one decoded from the sandbox response body, not the production-decoded
one. -/
theorem verify_sandbox_fallback
    (w : World) (c : Client) (req : IAPRequest) (res : Tgt)
    {resp resp2 : HttpResponse} {buf buf2 : Option Json} {res1 res2 : Tgt}
    (hprod : c.IsProduct = false)
    (hnr : w.newRequestErr c.ProductionURL = none)
    (hdo : w.doReq c.ProductionURL (encodeIAPRequest req) = .ok resp)
    (hbody : resp.body = .ok buf)
    (htgt : unmarshalTgt buf res = .ok res1)
    (hst : unmarshalStatusResponse buf = .ok { Status := 21007 })
    (hnr2 : w.newRequestErr c.SandboxURL = none)
    (hdo2 : w.doReq c.SandboxURL (encodeIAPRequest req) = .ok resp2)
    (hbody2 : resp2.body = .ok buf2)
    (htgt2 : unmarshalTgt buf2 res1 = .ok res2) :
    (Verify w c req res).trace =
      [{ url := c.ProductionURL, contentType := ContentType, body := encodeIAPRequest req },
       { url := c.SandboxURL, contentType := ContentType, body := encodeIAPRequest req }] ∧
    (Verify w c req res).result = res2 ∧
    (Verify w c req res).err = none := by
  rw [verify_fallback_eval w c req res hprod hnr hdo hbody htgt hst hnr2 hdo2 hbody2 htgt2]
  exact ⟨rfl, rfl, rfl⟩

/-- Witness for C1: a sandbox-aware client against a world whose production
endpoint answers 21007; the sandbox leg is taken once and the result carries
the sandbox environment field. -/
theorem verify_sandbox_fallback_witness :
    (Verify wFallback cSandboxAware reqSample tgtEmpty).trace =
      [{ url := "prod", contentType := ContentType, body := encodeIAPRequest reqSample },
       { url := "sb", contentType := ContentType, body := encodeIAPRequest reqSample }] ∧
    (Verify wFallback cSandboxAware reqSample tgtEmpty).err = none ∧
    getField (Verify wFallback cSandboxAware reqSample tgtEmpty).result "environment" =
      some (Json.str "Sandbox") := by
  have h := verify_sandbox_fallback wFallback cSandboxAware reqSample tgtEmpty
    rfl rfl rfl rfl rfl rfl rfl rfl rfl rfl
  refine ⟨h.1, h.2.2, ?_⟩
  show (Verify wFallback cSandboxAware reqSample tgtEmpty).result "environment" =
    some (Json.str "Sandbox")
  rw [h.2.1]
  rfl

/-- Claim C2: for a client with `IsProduct = true`, a production response with
status 21007 triggers no sandbox request: the only POST issued is the
production one and the result target holds the decoded production body. -/
theorem verify_production_no_fallback
    (w : World) (c : Client) (req : IAPRequest) (res : Tgt)
    {resp : HttpResponse} {buf : Option Json} {res1 : Tgt}
    (hprod : c.IsProduct = true)
    (hnr : w.newRequestErr c.ProductionURL = none)
    (hdo : w.doReq c.ProductionURL (encodeIAPRequest req) = .ok resp)
    (hbody : resp.body = .ok buf)
    (htgt : unmarshalTgt buf res = .ok res1)
    (hst : unmarshalStatusResponse buf = .ok { Status := 21007 }) :
    Verify w c req res =
      { client := c, result := res1, trace := [productionCall c req], err := none } := by
  simp [Verify, parseResponse, hnr, hdo, hbody, htgt, hst, hprod]

/-- Witness for C2: a production-configured client against a world answering
21007 everywhere; only the production POST is issued and the call succeeds
with the production body decoded into the target. -/
theorem verify_production_no_fallback_witness :
    (Verify (wStatus 21007) cProduction reqSample tgtEmpty).trace =
      [{ url := "prod", contentType := ContentType, body := encodeIAPRequest reqSample }] ∧
    (Verify (wStatus 21007) cProduction reqSample tgtEmpty).err = none ∧
    getField (Verify (wStatus 21007) cProduction reqSample tgtEmpty).result "status" =
      some (Json.num 21007) := by
  have h := verify_production_no_fallback (wStatus 21007) cProduction reqSample tgtEmpty
    rfl rfl rfl rfl rfl rfl
  rw [h]
  exact ⟨rfl, rfl, rfl⟩

/-- Claim C5: when the response body decodes into both the result target and
the status envelope and the 21007-fallback condition does not hold, `Verify`
returns no error, whatever the decoded status code is. -/
theorem verify_nonzero_status_no_error
    (w : World) (c : Client) (req : IAPRequest) (res : Tgt)
    {resp : HttpResponse} {buf : Option Json} {res1 : Tgt} {r : StatusResponse}
    (hnr : w.newRequestErr c.ProductionURL = none)
    (hdo : w.doReq c.ProductionURL (encodeIAPRequest req) = .ok resp)
    (hbody : resp.body = .ok buf)
    (htgt : unmarshalTgt buf res = .ok res1)
    (hst : unmarshalStatusResponse buf = .ok r)
    (hcond : ¬(c.IsProduct = false ∧ r.Status = 21007)) :
    Verify w c req res =
      { client := c, result := res1, trace := [productionCall c req], err := none } := by
  simp [Verify, parseResponse, hnr, hdo, hbody, htgt, hst, hcond]

/-- Witness for C5: a sandbox-aware client receiving the non-zero status 21004
gets a successful call (no error) with the body decoded into the target. -/
theorem verify_nonzero_status_no_error_witness :
    (Verify (wStatus 21004) cSandboxAware reqSample tgtEmpty).err = none ∧
    getField (Verify (wStatus 21004) cSandboxAware reqSample tgtEmpty).result "status" =
      some (Json.num 21004) := by
  have h := verify_nonzero_status_no_error (wStatus 21004) cSandboxAware reqSample tgtEmpty
    rfl rfl rfl rfl rfl (by decide)
  rw [h]
  exact ⟨rfl, rfl⟩

/-- Claim C6: when the response body is not valid JSON, or is structurally
incompatible with the result target or with the status envelope, `Verify`
returns the decode error, and the result target holds exactly what the
decoder had already written (nothing in the first case, the target decode in
the second). -/
theorem verify_decode_error
    (w : World) (c : Client) (req : IAPRequest) (res : Tgt)
    {resp : HttpResponse} {buf : Option Json}
    (hnr : w.newRequestErr c.ProductionURL = none)
    (hdo : w.doReq c.ProductionURL (encodeIAPRequest req) = .ok resp)
    (hbody : resp.body = .ok buf) :
    (∀ e, unmarshalTgt buf res = .error e →
      Verify w c req res =
        { client := c, result := res, trace := [productionCall c req], err := some e }) ∧
    (∀ e res1, unmarshalTgt buf res = .ok res1 → unmarshalStatusResponse buf = .error e →
      Verify w c req res =
        { client := c, result := res1, trace := [productionCall c req], err := some e }) := by
  constructor
  · intro e he
    simp [Verify, parseResponse, hnr, hdo, hbody, he]
  · intro e res1 h1 h2
    simp [Verify, parseResponse, hnr, hdo, hbody, h1, h2]

/-- Witness for C6: a response body that is not valid JSON makes `Verify`
fail with the decode error and leaves the empty target untouched. -/
theorem verify_decode_error_witness :
    Verify wInvalidJson cSandboxAware reqSample tgtEmpty =
      { client := cSandboxAware, result := tgtEmpty,
        trace := [productionCall cSandboxAware reqSample],
        err := some GoErr.invalidJson } :=
  (verify_decode_error wInvalidJson cSandboxAware reqSample tgtEmpty rfl rfl rfl).1
    GoErr.invalidJson rfl

/-- Claim C7: a failure to construct the HTTP request is surfaced verbatim as
the call's error, and no request is dispatched in its place (no retry): a
production-side construction failure yields an empty trace, and a
sandbox-side construction failure leaves only the already-issued production
POST in the trace.  Serialization of the `IAPRequest` payload itself is total
in Go (strings and a bool), so no serialization failure can arise. -/
theorem verify_request_construction_error
    (w : World) (c : Client) (req : IAPRequest) (res : Tgt) :
    (∀ e, w.newRequestErr c.ProductionURL = some e →
      Verify w c req res = { client := c, result := res, trace := [], err := some e }) ∧
    (∀ e (resp : HttpResponse) (buf : Option Json) (res1 : Tgt),
      w.newRequestErr c.ProductionURL = none →
      w.doReq c.ProductionURL (encodeIAPRequest req) = .ok resp →
      resp.body = .ok buf →
      unmarshalTgt buf res = .ok res1 →
      unmarshalStatusResponse buf = .ok { Status := 21007 } →
      c.IsProduct = false →
      w.newRequestErr c.SandboxURL = some e →
      Verify w c req res =
        { client := c, result := res1, trace := [productionCall c req], err := some e }) := by
  constructor
  · intro e he
    simp [Verify, he]
  · intro e resp buf res1 hnr hdo hbody htgt hst hprod hnr2
    simp [Verify, parseResponse, hnr, hdo, hbody, htgt, hst, hprod, hnr2]

/-- Witness for C7: a world in which request construction fails surfaces the
URL error verbatim and dispatches nothing. -/
theorem verify_request_construction_error_witness :
    Verify wBadURL cSandboxAware reqSample tgtEmpty =
      { client := cSandboxAware, result := tgtEmpty, trace := [],
        err := some (GoErr.urlErr "parse") } :=
  (verify_request_construction_error wBadURL cSandboxAware reqSample tgtEmpty).1
    (GoErr.urlErr "parse") rfl

/-- Claim C10: the sandbox response is decoded into the result value already
populated from the production response, without resetting it: a field bound
in the production JSON body but absent from the sandbox JSON body keeps its
production-decoded value in the final result. -/
theorem verify_sandbox_fallback_retains_fields
    (w : World) (c : Client) (req : IAPRequest) (res : Tgt)
    {resp resp2 : HttpResponse} {pfs sfs : List (String × Json)} {res1 res2 : Tgt}
    {k : String} {v : Json}
    (hprod : c.IsProduct = false)
    (hnr : w.newRequestErr c.ProductionURL = none)
    (hdo : w.doReq c.ProductionURL (encodeIAPRequest req) = .ok resp)
    (hbody : resp.body = .ok (some (Json.obj pfs)))
    (htgt : unmarshalTgt (some (Json.obj pfs)) res = .ok res1)
    (hst : unmarshalStatusResponse (some (Json.obj pfs)) = .ok { Status := 21007 })
    (hnr2 : w.newRequestErr c.SandboxURL = none)
    (hdo2 : w.doReq c.SandboxURL (encodeIAPRequest req) = .ok resp2)
    (hbody2 : resp2.body = .ok (some (Json.obj sfs)))
    (htgt2 : unmarshalTgt (some (Json.obj sfs)) res1 = .ok res2)
    (hk : lookupLast pfs k = some v)
    (hk2 : lookupLast sfs k = none) :
    (Verify w c req res).result = res2 ∧
    res1 k = some v ∧
    (Verify w c req res).result k = some v := by
  have hev := verify_fallback_eval w c req res hprod hnr hdo hbody htgt hst hnr2 hdo2 hbody2 htgt2
  refine ⟨by rw [hev], unmarshalTgt_present htgt hk, ?_⟩
  rw [hev]
  show res2 k = some v
  rw [unmarshalTgt_absent htgt2 hk2]
  exact unmarshalTgt_present htgt hk

/-- Witness for C10: the production body binds `latest_receipt`, the sandbox
body does not; after the fallback the final result still holds the
production-decoded value of that field. -/
theorem verify_sandbox_fallback_retains_fields_witness :
    getField (Verify wRetain cSandboxAware reqSample tgtEmpty).result "latest_receipt" =
      some (Json.str "prodOnly") :=
  (verify_sandbox_fallback_retains_fields wRetain cSandboxAware reqSample tgtEmpty
    (k := "latest_receipt") (v := Json.str "prodOnly")
    rfl rfl rfl rfl rfl rfl rfl rfl rfl rfl rfl rfl).2.2
